import Mathlib

/-!
Verification development for the metriful driver crate.

The Rust source is shallowly embedded: pure functions become Lean
functions, stateful session code becomes explicit state passing over a
`Sess` record, and fallible code returns `Except MError`.  Machine bytes
are modelled as `Nat` (all decoders in the source match on small byte
values, so no wrap-around arithmetic occurs); `f32` fixed-point
recombination is modelled with exact rationals, since every value the
source builds is `integer + fractional/10` with small operands.
The i2c transport and the GPIO ready line are external collaborators of
the crate; they are modelled from the spec's register table (0x89 cycle
period select, 0x8A operational-mode readback, 0xE4 enter cycle, 0xE5
enter standby) as a register file plus a trace of writes and sleeps.
-/

namespace Metriful

/-- Cycle periods supported by the device, from `status.rs` (`CyclePeriod`). -/
inductive CyclePeriod where
| period0
| period1
| period2
deriving DecidableEq, Repr

/-- Operational mode, from `status.rs` (`OperationalMode`). -/
inductive OperationalMode where
| cycle (p : CyclePeriod)
| standby
deriving DecidableEq, Repr

/-- Error taxonomy, from `error.rs` (`MetrifulError`); the i2c and GPIO
error payloads of the source are collapsed to bare tags. -/
inductive MError where
| i2cError
| gpioError
| invalidParticleSensorMode (b : Nat)
| invalidCyclePeriod (b : Nat)
| invalidOperationalMode (b : Nat)
| readyTimeoutExceeded
| statusMissing
| notReady
| invalidMode (current required : OperationalMode)
| invalidAQIAccuracy (b : Nat)
| invalidParticleDataValidity (b : Nat)
| decibelBandsError
deriving DecidableEq, Repr

/-- `CyclePeriod::from_value` from `status.rs`. -/
def CyclePeriod.from_value (value : Nat) : Except MError CyclePeriod :=
  match value with
  | 0 => .ok .period0
  | 1 => .ok .period1
  | 2 => .ok .period2
  | _ => .error (.invalidCyclePeriod value)

/-- `CyclePeriod::to_value` from `status.rs`. -/
def CyclePeriod.to_value : CyclePeriod → Nat
| .period0 => 0
| .period1 => 1
| .period2 => 2

/-- `ParticleSensorMode` from `status.rs`. -/
inductive ParticleSensorMode where
| disabled
| enabledPPD42
| enabledSDS011
deriving DecidableEq, Repr

/-- `ParticleSensorMode::from_value` from `status.rs`. -/
def ParticleSensorMode.from_value (value : Nat) : Except MError ParticleSensorMode :=
  match value with
  | 0 => .ok .disabled
  | 1 => .ok .enabledPPD42
  | 2 => .ok .enabledSDS011
  | _ => .error (.invalidParticleSensorMode value)

/-- `InterruptMode` from `status.rs`. -/
inductive InterruptMode where
| latch
| comparator
deriving DecidableEq, Repr

/-- `InterruptPolarity` from `status.rs`. -/
inductive InterruptPolarity where
| positive
| negative
deriving DecidableEq, Repr

/-- `InterruptStatus<T>` from `status.rs`. -/
inductive InterruptStatus (α : Type) where
| disabled
| enabled (a : α)
deriving DecidableEq, Repr

/-- `util::read_f32_with_u8_denom`: `int_part + frac_part / 10`, with the
`f32` arithmetic of the source modelled as exact rationals. -/
def read_f32_with_u8_denom (int_part : ℚ) (frac_part : Nat) : ℚ :=
  int_part + (frac_part : ℚ) / 10

/-- Little-endian 16-bit reconstruction (`Bytes::get_u16_le`). -/
def u16le (b0 b1 : Nat) : Nat := b0 + 256 * b1

/-- Little-endian 32-bit reconstruction (`Bytes::get_u32_le`). -/
def u32le (b0 b1 b2 b3 : Nat) : Nat :=
  b0 + 256 * (b1 + 256 * (b2 + 256 * b3))

/-- Signed reinterpretation of a byte (`Bytes::get_i8`). -/
def i8val (b : Nat) : Int :=
  if b < 128 then (b : Int) else (b : Int) - 256

/-- `SoundInterrupt` from `status.rs`; the u16 threshold is a `Nat`. -/
structure SoundInterrupt where
  mode : InterruptMode
  threshold : Nat
deriving DecidableEq, Repr

/-- `LightInterrupt` from `status.rs`; the f32 threshold is a rational. -/
structure LightInterrupt where
  mode : InterruptMode
  polarity : InterruptPolarity
  threshold : ℚ
deriving DecidableEq, Repr

/-- `DeviceStatus` from `status.rs`. -/
structure DeviceStatus where
  particle_sensor : ParticleSensorMode
  light_int : InterruptStatus LightInterrupt
  sound_int : InterruptStatus SoundInterrupt
  mode : OperationalMode
deriving DecidableEq, Repr

/-- `AQIAccuracy` from `unit.rs`. -/
inductive AQIAccuracy where
| invalid
| low
| medium
| high
deriving DecidableEq, Repr

/-- `AQIAccuracy::from_byte` from `unit.rs`. -/
def AQIAccuracy.from_byte (byte : Nat) : Except MError AQIAccuracy :=
  match byte with
  | 0 => .ok .invalid
  | 1 => .ok .low
  | 2 => .ok .medium
  | 3 => .ok .high
  | _ => .error (.invalidAQIAccuracy byte)

/-- `SoundMeasurementStability` from `unit.rs`. -/
inductive SoundMeasurementStability where
| stable
| unstable
deriving DecidableEq, Repr

/-- `UnitSoundMeasurementStability::from_bytes` from `unit.rs`: reads one
byte; `1` decodes to `Stable` and every other byte to `Unstable`. -/
def SoundMeasurementStability.from_bytes (bytes : List Nat) : Except MError SoundMeasurementStability :=
  match bytes.headD 0 with
  | 1 => .ok .stable
  | _ => .ok .unstable

/-- `ParticleDataValidity` from `unit.rs`. -/
inductive ParticleDataValidity where
| initializing
| settled
deriving DecidableEq, Repr

/-- `ParticleDataValidity::from_byte` from `unit.rs`. -/
def ParticleDataValidity.from_byte (byte : Nat) : Except MError ParticleDataValidity :=
  match byte with
  | 0 => .ok .initializing
  | 1 => .ok .settled
  | _ => .error (.invalidParticleDataValidity byte)

/-- `CombinedAirData` from `unit.rs`; the nested `UnitValue` wrappers and
their capture timestamps are dropped, keeping the decoded sub-values. -/
structure CombinedAirData where
  temperature : ℚ
  pressure : Nat
  humidity : ℚ
  gas_sensor_resistance : Nat
deriving DecidableEq, Repr

/-- `UnitDegreesCelsius::from_bytes`: signed byte integer part and a
fractional byte, consuming two bytes. -/
def UnitDegreesCelsius.from_bytes (bytes : List Nat) : ℚ × List Nat :=
  let int_part := i8val (bytes.headD 0)
  let bytes := bytes.tail
  let frac_part := bytes.headD 0
  let bytes := bytes.tail
  (read_f32_with_u8_denom (int_part : ℚ) frac_part, bytes)

/-- `UnitPascals::from_bytes`: little-endian u32, consuming four bytes. -/
def UnitPascals.from_bytes (bytes : List Nat) : Nat × List Nat :=
  (u32le (bytes.getD 0 0) (bytes.getD 1 0) (bytes.getD 2 0) (bytes.getD 3 0), bytes.drop 4)

/-- `UnitRelativeHumidity::from_bytes`: unsigned byte integer part and a
fractional byte, consuming two bytes. -/
def UnitRelativeHumidity.from_bytes (bytes : List Nat) : ℚ × List Nat :=
  let int_part := bytes.headD 0
  let bytes := bytes.tail
  let frac_part := bytes.headD 0
  let bytes := bytes.tail
  (read_f32_with_u8_denom (int_part : ℚ) frac_part, bytes)

/-- `UnitResistance::from_bytes`: little-endian u32, consuming four bytes. -/
def UnitResistance.from_bytes (bytes : List Nat) : Nat × List Nat :=
  (u32le (bytes.getD 0 0) (bytes.getD 1 0) (bytes.getD 2 0) (bytes.getD 3 0), bytes.drop 4)

/-- `UnitCombinedAirData::from_bytes` from `unit.rs`: decodes temperature,
pressure, humidity and gas-sensor resistance in that order from one
12-byte block. -/
def UnitCombinedAirData.from_bytes (bytes : List Nat) : Except MError CombinedAirData :=
  let (temperature, bytes) := UnitDegreesCelsius.from_bytes bytes
  let (pressure, bytes) := UnitPascals.from_bytes bytes
  let (humidity, bytes) := UnitRelativeHumidity.from_bytes bytes
  let (gas_sensor_resistance, _) := UnitResistance.from_bytes bytes
  .ok { temperature, pressure, humidity, gas_sensor_resistance }

/-! ### Transport and session model

The i2c transport and GPIO ready line are external to the crate; they are
modelled from the spec's register protocol table.  Register reads are
served from a register file (`none` models a transport read failure);
writes are modelled as infallible, are appended to a trace together with
the mandated sleeps, and update the mode registers the spec assigns to
them (0xE5 clears the 0x8A mode readback, 0xE4 sets it, and a data write
stores its value at its register, so 0x89 holds the cycle period). -/

/-- One observable transport event: a command write, a data write, or a
mandated sleep (milliseconds). -/
inductive Ev where
| writeByte (b : Nat)
| writeByteData (reg val : Nat)
| sleepMs (ms : Nat)
deriving DecidableEq, Repr

/-- The mock device: ready-pin level (`none` models a GPIO read error),
byte registers, block registers, and the accumulated event trace. -/
structure Dev where
  pin : Option Nat
  regs : Nat → Option Nat
  blocks : Nat → Nat → Option (List Nat)
  trace : List Ev

/-- `smbus_read_byte_data`: serve a byte register, `none` is an i2c error. -/
def Dev.smbus_read_byte_data (d : Dev) (reg : Nat) : Except MError Nat :=
  match d.regs reg with
  | some v => .ok v
  | none => .error .i2cError

/-- `smbus_read_i2c_block_data`: serve a block register. -/
def Dev.smbus_read_i2c_block_data (d : Dev) (reg len : Nat) : Except MError (List Nat) :=
  match d.blocks reg len with
  | some bs => .ok bs
  | none => .error .i2cError

/-- `smbus_write_byte`: trace the command and apply the device's
spec-documented reaction (0xE5 enters standby, 0xE4 enters cycle mode;
the 0x8A readback register reflects this). -/
def Dev.smbus_write_byte (d : Dev) (b : Nat) : Dev :=
  { d with
    trace := d.trace ++ [.writeByte b]
    regs :=
      if b = 0xE5 then fun r => if r = 0x8A then some 0 else d.regs r
      else if b = 0xE4 then fun r => if r = 0x8A then some 1 else d.regs r
      else d.regs }

/-- `smbus_write_byte_data`: trace the write and store the value. -/
def Dev.smbus_write_byte_data (d : Dev) (reg val : Nat) : Dev :=
  { d with
    trace := d.trace ++ [.writeByteData reg val]
    regs := fun r => if r = reg then some val else d.regs r }

/-- `thread::sleep`, traced in milliseconds. -/
def Dev.sleep (d : Dev) (ms : Nat) : Dev :=
  { d with trace := d.trace ++ [.sleepMs ms] }

/-- `SoundInterrupt::read` from `status.rs`: mode byte at 0x87, u16
threshold from a 2-byte block at 0x86. -/
def SoundInterrupt.read (d : Dev) : Except MError SoundInterrupt :=
  match d.smbus_read_byte_data 0x87 with
  | .error e => .error e
  | .ok modeByte =>
    let mode := match modeByte with
      | 0 => InterruptMode.latch
      | _ => InterruptMode.comparator
    match d.smbus_read_i2c_block_data 0x86 2 with
    | .error e => .error e
    | .ok bs => .ok { mode, threshold := u16le (bs.getD 0 0) (bs.getD 1 0) }

/-- `LightInterrupt::read` from `status.rs`: mode byte at 0x83, polarity
byte at 0x84, threshold from a 3-byte block at 0x82. -/
def LightInterrupt.read (d : Dev) : Except MError LightInterrupt :=
  match d.smbus_read_byte_data 0x83 with
  | .error e => .error e
  | .ok modeByte =>
    let mode := match modeByte with
      | 0 => InterruptMode.latch
      | _ => InterruptMode.comparator
    match d.smbus_read_byte_data 0x84 with
    | .error e => .error e
    | .ok polByte =>
      let polarity := match polByte with
        | 0 => InterruptPolarity.positive
        | _ => InterruptPolarity.negative
      match d.smbus_read_i2c_block_data 0x82 3 with
      | .error e => .error e
      | .ok bs =>
        .ok { mode, polarity,
              threshold := read_f32_with_u8_denom (u16le (bs.getD 0 0) (bs.getD 1 0) : ℚ) (bs.getD 2 0) }

/-- The particle-sensor component of `DeviceStatus::read`: byte at 0x07. -/
def read_particle (d : Dev) : Except MError ParticleSensorMode :=
  match d.smbus_read_byte_data 0x07 with
  | .error e => .error e
  | .ok b => ParticleSensorMode.from_value b

/-- The light-interrupt component of `DeviceStatus::read`: gated by the
enable byte at 0x81. -/
def read_light_int (d : Dev) : Except MError (InterruptStatus LightInterrupt) :=
  match d.smbus_read_byte_data 0x81 with
  | .error e => .error e
  | .ok lightByte =>
    match lightByte with
    | 0 => .ok .disabled
    | _ =>
      match LightInterrupt.read d with
      | .error e => .error e
      | .ok li => .ok (.enabled li)

/-- The sound-interrupt component of `DeviceStatus::read`: gated by the
enable byte at 0x86. -/
def read_sound_int (d : Dev) : Except MError (InterruptStatus SoundInterrupt) :=
  match d.smbus_read_byte_data 0x86 with
  | .error e => .error e
  | .ok soundByte =>
    match soundByte with
    | 0 => .ok .disabled
    | _ =>
      match SoundInterrupt.read d with
      | .error e => .error e
      | .ok si => .ok (.enabled si)

/-- The operational-mode component of `DeviceStatus::read`: mode byte at
0x8A (0 standby, 1 cycle with the period read from 0x89, anything else
an `InvalidOperationalMode` error). -/
def read_mode (d : Dev) : Except MError OperationalMode :=
  match d.smbus_read_byte_data 0x8A with
  | .error e => .error e
  | .ok modeByte =>
    match modeByte with
    | 0 => .ok .standby
    | 1 =>
      match d.smbus_read_byte_data 0x89 with
      | .error e => .error e
      | .ok periodByte =>
        match CyclePeriod.from_value periodByte with
        | .error e => .error e
        | .ok p => .ok (.cycle p)
    | byte => .error (.invalidOperationalMode byte)

/-- `DeviceStatus::read` from `status.rs`: the four components in source
order; the first failure aborts the whole read. -/
def DeviceStatus.read (d : Dev) : Except MError DeviceStatus :=
  match read_particle d with
  | .error e => .error e
  | .ok particle_sensor =>
    match read_light_int d with
    | .error e => .error e
    | .ok light_int =>
      match read_sound_int d with
      | .error e => .error e
      | .ok sound_int =>
        match read_mode d with
        | .error e => .error e
        | .ok mode => .ok { particle_sensor, light_int, sound_int, mode }

/-- The `Metriful` session: device handle plus the cached status. -/
structure Sess where
  dev : Dev
  status : Option DeviceStatus

/-- Outcome of a session operation whose source may loop: success, a
typed error, or exhaustion of the model's poll fuel (the source would
still be polling). -/
inductive Out (α : Type) where
| ok (a : α)
| err (e : MError)
| spin
deriving DecidableEq, Repr

/-- `Metriful::is_ready`: the ready pin reads 0 when asserted. -/
def is_ready (s : Sess) : Except MError Bool :=
  match s.dev.pin with
  | some v => .ok (decide (v = 0))
  | none => .error .gpioError

/-- `Metriful::ensure_ready`. -/
def ensure_ready (s : Sess) : Except MError Unit :=
  match is_ready s with
  | .ok true => .ok ()
  | .ok false => .error .notReady
  | .error e => .error e

/-- Loop body of `Metriful::wait_for_ready_timeout`, fuelled.  Faithful to
the source: the 10ms sleep (traced) happens only inside the
`if let Some(timeout)` branch; elapsed time is idealized as the sum of
sleeps performed so far. -/
def wait_for_ready_aux (timeout : Option Nat) : Nat → Nat → Sess → Out Unit × Sess
| 0, _, s => (.spin, s)
| fuel + 1, elapsed, s =>
  match is_ready s with
  | .error e => (.err e, s)
  | .ok true => (.ok (), s)
  | .ok false =>
    match timeout with
    | some t =>
      if elapsed > t then (.err .readyTimeoutExceeded, s)
      else wait_for_ready_aux timeout fuel (elapsed + 10) { s with dev := s.dev.sleep 10 }
    | none => wait_for_ready_aux timeout fuel elapsed s

/-- `Metriful::wait_for_ready_timeout`. -/
def wait_for_ready_timeout (fuel : Nat) (timeout : Option Nat) (s : Sess) : Out Unit × Sess :=
  wait_for_ready_aux timeout fuel 0 s

/-- Loop body of `Metriful::wait_for_not_ready_timeout`, fuelled. -/
def wait_for_not_ready_aux (timeout : Option Nat) : Nat → Nat → Sess → Out Unit × Sess
| 0, _, s => (.spin, s)
| fuel + 1, elapsed, s =>
  match is_ready s with
  | .error e => (.err e, s)
  | .ok false => (.ok (), s)
  | .ok true =>
    match timeout with
    | some t =>
      if elapsed > t then (.err .readyTimeoutExceeded, s)
      else wait_for_not_ready_aux timeout fuel (elapsed + 10) { s with dev := s.dev.sleep 10 }
    | none => wait_for_not_ready_aux timeout fuel elapsed s

/-- `Metriful::wait_for_not_ready_timeout`. -/
def wait_for_not_ready_timeout (fuel : Nat) (timeout : Option Nat) (s : Sess) : Out Unit × Sess :=
  wait_for_not_ready_aux timeout fuel 0 s

/-- `Metriful::read_status`: one full status read; the cache is updated
only on success, a failure propagates with the session unchanged. -/
def read_status (s : Sess) : Except MError DeviceStatus × Sess :=
  match DeviceStatus.read s.dev with
  | .error e => (.error e, s)
  | .ok st => (.ok st, { s with status := some st })

/-- `Metriful::set_mode_naive` from `lib.rs`: standby is the single 0xE5
command; entering a cycle writes the period register 0x89, sleeps the
6ms settle, issues 0xE4 and sleeps 11ms.  Transport writes are modelled
as infallible, so this returns the updated session directly. -/
def set_mode_naive (mode : OperationalMode) (s : Sess) : Sess :=
  match mode with
  | .standby => { s with dev := s.dev.smbus_write_byte 0xE5 }
  | .cycle period =>
    let d := s.dev.smbus_write_byte_data 0x89 period.to_value
    let d := d.sleep 6
    let d := d.smbus_write_byte 0xE4
    let d := d.sleep 11
    { s with dev := d }

/-- The dispatch block of `Metriful::set_mode_timeout`: the
`match (status.mode, mode)` over no-op, direct and via-standby cases
(the via-standby case issues the standby transition, waits for ready,
then issues the target transition). -/
def set_mode_transition (fuel : Nat) (current target : OperationalMode) (timeout : Option Nat)
    (s : Sess) : Out Unit × Sess :=
  match current, target with
  | .standby, .standby => (.ok (), s)
  | .cycle a, .cycle b =>
    if a = b then (.ok (), s)
    else
      match wait_for_ready_timeout fuel timeout (set_mode_naive .standby s) with
      | (.ok (), s4) => (.ok (), set_mode_naive target s4)
      | (.err e, s4) => (.err e, s4)
      | (.spin, s4) => (.spin, s4)
  | .standby, .cycle _ => (.ok (), set_mode_naive target s)
  | .cycle _, .standby => (.ok (), set_mode_naive target s)

/-- The tail of `Metriful::set_mode_timeout`: wait for ready once more,
then re-read and return a fresh status. -/
def set_mode_finish (fuel : Nat) (timeout : Option Nat) (s : Sess) : Out DeviceStatus × Sess :=
  match wait_for_ready_timeout fuel timeout s with
  | (.ok (), s7) =>
    match read_status s7 with
    | (.ok st, s8) => (.ok st, s8)
    | (.error e, s8) => (.err e, s8)
  | (.err e, s7) => (.err e, s7)
  | (.spin, s7) => (.spin, s7)

/-- `Metriful::set_mode_timeout` from `lib.rs`: wait for ready, read the
current status, dispatch on (current, target), wait for ready again and
re-read the status. -/
def set_mode_timeout (fuel : Nat) (mode : OperationalMode) (timeout : Option Nat) (s : Sess) :
    Out DeviceStatus × Sess :=
  match wait_for_ready_timeout fuel timeout s with
  | (.err e, s1) => (.err e, s1)
  | (.spin, s1) => (.spin, s1)
  | (.ok (), s1) =>
    match read_status s1 with
    | (.error e, s2) => (.err e, s2)
    | (.ok status, s2) =>
      match set_mode_transition fuel status.mode mode timeout s2 with
      | (.err e, s6) => (.err e, s6)
      | (.spin, s6) => (.spin, s6)
      | (.ok (), s6) => set_mode_finish fuel timeout s6

/-- `Metriful::execute_measurement` from `lib.rs`: requires a cached
status showing standby and the ready line asserted, then issues the
0xE1 trigger and sleeps the 6ms settle. -/
def execute_measurement (s : Sess) : Except MError Unit × Sess :=
  match s.status with
  | none => (.error .statusMissing, s)
  | some status =>
    match status.mode with
    | .cycle p => (.error (.invalidMode (.cycle p) .standby), s)
    | .standby =>
      match ensure_ready s with
      | .error e => (.error e, s)
      | .ok () => (.ok (), { s with dev := (s.dev.smbus_write_byte 0xE1).sleep 6 })

/-- `Metriful::reset` from `lib.rs`. -/
def reset (fuel : Nat) (s : Sess) : Out DeviceStatus × Sess :=
  match ensure_ready s with
  | .error e => (.err e, s)
  | .ok () =>
    match wait_for_ready_timeout fuel none
        { s with dev := (s.dev.smbus_write_byte 0xE2).sleep 6 } with
    | (.ok (), s2) =>
      match read_status s2 with
      | (.ok st, s3) => (.ok st, s3)
      | (.error e, s3) => (.err e, s3)
    | (.err e, s2) => (.err e, s2)
    | (.spin, s2) => (.spin, s2)

/-- `Metriful::clear_light_interrupt` from `lib.rs`. -/
def clear_light_interrupt (s : Sess) : Except MError Unit × Sess :=
  match ensure_ready s with
  | .error e => (.error e, s)
  | .ok () => (.ok (), { s with dev := (s.dev.smbus_write_byte 0xE6).sleep 6 })

/-- `Metriful::clear_sound_interrupt` from `lib.rs`. -/
def clear_sound_interrupt (s : Sess) : Except MError Unit × Sess :=
  match ensure_ready s with
  | .error e => (.error e, s)
  | .ok () => (.ok (), { s with dev := (s.dev.smbus_write_byte 0xE7).sleep 6 })

/-- `Metriful::read` from `lib.rs` at the transport level: requires
readiness, then performs the metric's fixed-length block read (per-unit
decoding is the pure layer above and never touches the session). -/
def read_metric (reg len : Nat) (s : Sess) : Except MError (List Nat) × Sess :=
  match ensure_ready s with
  | .error e => (.error e, s)
  | .ok () => (s.dev.smbus_read_i2c_block_data reg len, s)

/-- `Metriful::try_new_device_timeout` from `lib.rs`: start with no cached
status, wait for ready, then read (and cache) the status. -/
def try_new_device_timeout (fuel : Nat) (timeout : Option Nat) (dev : Dev) : Out Sess :=
  match wait_for_ready_timeout fuel timeout { dev := dev, status := none } with
  | (.ok (), s1) =>
    match read_status s1 with
    | (.ok _, s2) => .ok s2
    | (.error e, _) => .err e
  | (.err e, _) => .err e
  | (.spin, _) => .spin

/-- `Metriful::try_new_timeout` from `lib.rs`: the GPIO export and i2c
open are external; after them the body is the same ready-wait plus
status read. -/
def try_new_timeout (fuel : Nat) (timeout : Option Nat) (dev : Dev) : Out Sess :=
  try_new_device_timeout fuel timeout dev

/-- `Metriful::try_new` from `lib.rs`: `try_new_timeout` with no timeout. -/
def try_new (fuel : Nat) (dev : Dev) : Out Sess :=
  try_new_timeout fuel none dev

/-! ### Timing model of the ready-wait loop

For claims about the poll cadence the ready line must be time-varying,
so `wait_for_ready_timeout` is additionally embedded over a poll-indexed
readiness trace, recording every sleep.  Elapsed time is idealized as
the total sleep time, and the GPIO read itself is taken to succeed. -/

/-- Result of a fuelled run of the ready-wait loop: success (with the
number of `is_ready` polls made and the recorded sleeps), a timeout
error (with the sleeps), or fuel exhaustion (the source still polling). -/
inductive WaitOutcome where
| ok (polls : Nat) (sleeps : List Nat)
| timedOut (sleeps : List Nat)
| outOfFuel
deriving DecidableEq, Repr

/-- `Metriful::wait_for_ready_timeout` over a poll-indexed ready trace:
return as soon as a poll sees ready; otherwise, only when a timeout is
configured, either fail once the elapsed time exceeds it or sleep 10ms;
with no timeout the loop repolls immediately without sleeping. -/
def wait_poll_model (readyAt : Nat → Bool) (timeout : Option Nat) :
    Nat → Nat → Nat → List Nat → WaitOutcome
| 0, _, _, _ => .outOfFuel
| fuel + 1, n, elapsed, sleeps =>
  if readyAt n then .ok (n + 1) sleeps
  else
    match timeout with
    | some t =>
      if elapsed > t then .timedOut sleeps
      else wait_poll_model readyAt timeout fuel (n + 1) (elapsed + 10) (sleeps ++ [10])
    | none => wait_poll_model readyAt timeout fuel (n + 1) elapsed sleeps

/-! ### Read-strategy iterators

`MetricReadIterator::next` and `CycleReadIterator::next` interleave
session calls whose outcomes depend on the device; each step's underlying
operation outcomes are abstracted as an oracle record (a diverging
underlying call would simply mean no further completed steps), keeping
the iterator's own control flow — the error latch and the `and_then`
chains — exactly as in the source. -/

/-- Outcomes of the session operations one `MetricReadIterator::next`
step performs, in program order. -/
structure MetricStepOracle (V : Type) where
  waitReady : Except MError Unit
  execMeasurement : Except MError Unit
  waitReadyAgain : Except MError Unit
  readMetric : Except MError V

/-- `MetricReadIterator::next` from `lib.rs`: `None` once the error latch
is set; a failed ready-wait latches and yields the error; otherwise the
`execute_measurement().and_then(wait).and_then(read)` chain runs, its
error (if any) latching and being yielded. -/
def metric_iter_next {V : Type} (o : MetricStepOracle V) (error : Bool) :
    Option (Except MError V) × Bool :=
  if error then (none, error)
  else
    match o.waitReady with
    | .error e => (some (.error e), true)
    | .ok () =>
      match (do o.execMeasurement; o.waitReadyAgain; o.readMetric : Except MError V) with
      | .ok v => (some (.ok v), error)
      | .error e => (some (.error e), true)

/-- The error-latch state of `MetricReadIterator` after `n` steps against
an oracle stream (initially false). -/
def metric_iter_state {V : Type} (os : Nat → MetricStepOracle V) : Nat → Bool
| 0 => false
| n + 1 => (metric_iter_next (os n) (metric_iter_state os n)).2

/-- The item yielded by the `n`-th call to `MetricReadIterator::next`. -/
def metric_iter_out {V : Type} (os : Nat → MetricStepOracle V) (n : Nat) :
    Option (Except MError V) :=
  (metric_iter_next (os n) (metric_iter_state os n)).1

/-- Outcomes of the session operations one `CycleReadIterator::next` step
may perform, in program order. -/
structure CycleStepOracle (V : Type) where
  setMode : Except MError DeviceStatus
  readFirst : Except MError V
  waitNotReady : Except MError Unit
  waitReady : Except MError Unit
  readMetric : Except MError V

/-- `CycleReadIterator::next` from `lib.rs`: `None` once the error latch
is set; on the first step a mode change then a read (each failure
latching); on later steps the
`wait_for_not_ready.and_then(wait_for_ready).and_then(read)` chain. -/
def cycle_iter_next {V : Type} (o : CycleStepOracle V) (first error : Bool) :
    Option (Except MError V) × Bool × Bool :=
  if error then (none, first, error)
  else if first then
    match o.setMode with
    | .ok _ =>
      match o.readFirst with
      | .ok v => (some (.ok v), false, error)
      | .error e => (some (.error e), false, true)
    | .error e => (some (.error e), first, true)
  else
    match (do o.waitNotReady; o.waitReady; o.readMetric : Except MError V) with
    | .ok v => (some (.ok v), first, error)
    | .error e => (some (.error e), first, true)

/-- The (first, error) state of `CycleReadIterator` after `n` steps
(initially (true, false)). -/
def cycle_iter_state {V : Type} (os : Nat → CycleStepOracle V) : Nat → Bool × Bool
| 0 => (true, false)
| n + 1 =>
  (cycle_iter_next (os n) (cycle_iter_state os n).1 (cycle_iter_state os n).2).2

/-- The item yielded by the `n`-th call to `CycleReadIterator::next`. -/
def cycle_iter_out {V : Type} (os : Nat → CycleStepOracle V) (n : Nat) :
    Option (Except MError V) :=
  (cycle_iter_next (os n) (cycle_iter_state os n).1 (cycle_iter_state os n).2).1

/-! ### Session operations as data, for cache invariants -/

/-- Every state-bearing session operation of `lib.rs`, as data. -/
inductive SessionOp where
| opReadStatus
| opSetModeNaive (m : OperationalMode)
| opSetMode (fuel : Nat) (m : OperationalMode) (t : Option Nat)
| opExecuteMeasurement
| opReset (fuel : Nat)
| opClearLight
| opClearSound
| opWaitReady (fuel : Nat) (t : Option Nat)
| opWaitNotReady (fuel : Nat) (t : Option Nat)
| opReadMetric (reg len : Nat)
deriving DecidableEq, Repr

/-- The session state after running one operation. -/
def run_op (op : SessionOp) (s : Sess) : Sess :=
  match op with
  | .opReadStatus => (read_status s).2
  | .opSetModeNaive m => set_mode_naive m s
  | .opSetMode fuel m t => (set_mode_timeout fuel m t s).2
  | .opExecuteMeasurement => (execute_measurement s).2
  | .opReset fuel => (reset fuel s).2
  | .opClearLight => (clear_light_interrupt s).2
  | .opClearSound => (clear_sound_interrupt s).2
  | .opWaitReady fuel t => (wait_for_ready_timeout fuel t s).2
  | .opWaitNotReady fuel t => (wait_for_not_ready_timeout fuel t s).2
  | .opReadMetric reg len => (read_metric reg len s).2

/-! ### Concrete sample devices -/

/-- A register file with particle sensor disabled, both interrupts
disabled, mode byte `modeByte` at 0x8A and period byte `periodVal`
at 0x89. -/
def sampleRegs (modeByte periodVal : Nat) : Nat → Option Nat := fun r =>
  if r = 0x07 then some 0
  else if r = 0x81 then some 0
  else if r = 0x86 then some 0
  else if r = 0x8A then some modeByte
  else if r = 0x89 then some periodVal
  else none

/-- A ready device with the `sampleRegs` register file and empty trace. -/
def sampleDev (modeByte periodVal : Nat) : Dev :=
  { pin := some 0, regs := sampleRegs modeByte periodVal, blocks := fun _ _ => none, trace := [] }

/-- The status `sampleDev` decodes to, for a given mode. -/
def sampleStatus (m : OperationalMode) : DeviceStatus :=
  { particle_sensor := .disabled, light_int := .disabled, sound_int := .disabled, mode := m }

/-- A ready device whose particle-sensor register holds the out-of-range
byte 5, so a status read fails mid-way. -/
def badParticleDev : Dev :=
  { pin := some 0
    regs := fun r => if r = 0x07 then some 5 else sampleRegs 0 0 r
    blocks := fun _ _ => none
    trace := [] }

/-- An oracle step for `MetricReadIterator` whose ready-wait fails. -/
def failingMetricStep : MetricStepOracle Unit :=
  { waitReady := .error .notReady
    execMeasurement := .ok ()
    waitReadyAgain := .ok ()
    readMetric := .ok () }

/-- An oracle step for `CycleReadIterator` whose mode change fails. -/
def failingCycleStep : CycleStepOracle Unit :=
  { setMode := .error .notReady
    readFirst := .ok ()
    waitNotReady := .ok ()
    waitReady := .ok ()
    readMetric := .ok () }

/-! ## Shared lemmas -/

theorem cyclePeriod_from_to (p : CyclePeriod) : CyclePeriod.from_value p.to_value = .ok p := by
  cases p <;> rfl

theorem ensure_ready_ok_iff (s : Sess) : ensure_ready s = .ok () ↔ is_ready s = .ok true := by
  unfold ensure_ready
  cases h : is_ready s with
  | error e => simp
  | ok b => cases b <;> simp

/-! ## C4: cycle-period codec -/

/-- C4: for every `CyclePeriod` `p`, `from_value (to_value p) = Ok p`;
`to_value` maps the three periods exactly onto `{0, 1, 2}`; and every
byte outside `{0, 1, 2}` fails with `InvalidCyclePeriod` carrying that
byte. -/
theorem cycle_period_value_bijection :
    (∀ p : CyclePeriod, CyclePeriod.from_value p.to_value = .ok p)
    ∧ (∀ p : CyclePeriod, p.to_value < 3)
    ∧ (∀ v : Nat, v < 3 → ∃ p : CyclePeriod, p.to_value = v)
    ∧ (∀ b : Nat, 3 ≤ b → CyclePeriod.from_value b = .error (.invalidCyclePeriod b)) := by
  refine ⟨cyclePeriod_from_to, fun p => by cases p <;> decide, ?_, ?_⟩
  · intro v hv
    interval_cases v
    · exact ⟨.period0, rfl⟩
    · exact ⟨.period1, rfl⟩
    · exact ⟨.period2, rfl⟩
  · intro b hb
    match b, hb with
    | (k + 3), _ => rfl

/-- Witness for C4 at the concrete bytes 7 and 2. -/
theorem cycle_period_value_bijection_witness :
    CyclePeriod.from_value 7 = .error (.invalidCyclePeriod 7)
    ∧ ∃ p : CyclePeriod, p.to_value = 2 :=
  ⟨cycle_period_value_bijection.2.2.2 7 (by decide),
   cycle_period_value_bijection.2.2.1 2 (by decide)⟩

/-! ## C5: combined air-data decoding -/

/-- C5: decoding a 12-byte combined air-data block yields temperature,
pressure, humidity and gas-sensor resistance in that field order, the
fixed-point fields recombined as `integer + fractional/10` and the plain
integers as little-endian u32; on the synthetic block encoding 21.5 °C,
101325 Pa, 45.2 %RH and 123456 Ω it reproduces exactly those values. -/
theorem combined_air_data_decode :
    (∀ b0 b1 b2 b3 b4 b5 b6 b7 b8 b9 b10 b11 : Nat,
      UnitCombinedAirData.from_bytes [b0, b1, b2, b3, b4, b5, b6, b7, b8, b9, b10, b11]
        = .ok { temperature := read_f32_with_u8_denom (i8val b0 : ℚ) b1
                pressure := u32le b2 b3 b4 b5
                humidity := read_f32_with_u8_denom (b6 : ℚ) b7
                gas_sensor_resistance := u32le b8 b9 b10 b11 })
    ∧ UnitCombinedAirData.from_bytes [21, 5, 205, 139, 1, 0, 45, 2, 64, 226, 1, 0]
        = .ok { temperature := 43 / 2
                pressure := 101325
                humidity := 226 / 5
                gas_sensor_resistance := 123456 } := by
  constructor
  · intro b0 b1 b2 b3 b4 b5 b6 b7 b8 b9 b10 b11
    rfl
  · simp only [UnitCombinedAirData.from_bytes, UnitDegreesCelsius.from_bytes,
      UnitPascals.from_bytes, UnitRelativeHumidity.from_bytes, UnitResistance.from_bytes,
      read_f32_with_u8_denom, i8val, u16le, u32le]
    norm_num

/-! ## C7: enumerant-byte decoders -/

/-- C7 counterexample: the sound-measurement-stability decoder does not
fail on the out-of-set byte 2 — it silently decodes it to `Unstable`,
so the claim that every enumerant decoder rejects out-of-set bytes is
false for this decoder. -/
theorem sound_stability_decode_no_failure :
    SoundMeasurementStability.from_bytes [2] = .ok .unstable := rfl

/-- C7 (amended): AQI accuracy decoding is closed over `{0,1,2,3}` and
fails with `InvalidAQIAccuracy` otherwise; particle-data-validity
decoding is closed over `{0,1}` and fails with
`InvalidParticleDataValidity` otherwise; sound-measurement-stability
decoding never fails — byte 1 maps to `Stable` and every other byte is
silently mapped to `Unstable`. -/
theorem enumerant_decoders_closed_amended :
    (∀ b : Nat, 4 ≤ b → AQIAccuracy.from_byte b = .error (.invalidAQIAccuracy b))
    ∧ (AQIAccuracy.from_byte 0 = .ok .invalid ∧ AQIAccuracy.from_byte 1 = .ok .low
        ∧ AQIAccuracy.from_byte 2 = .ok .medium ∧ AQIAccuracy.from_byte 3 = .ok .high)
    ∧ (∀ b : Nat, 2 ≤ b → ParticleDataValidity.from_byte b = .error (.invalidParticleDataValidity b))
    ∧ (ParticleDataValidity.from_byte 0 = .ok .initializing
        ∧ ParticleDataValidity.from_byte 1 = .ok .settled)
    ∧ (∀ b : Nat,
        SoundMeasurementStability.from_bytes [b]
          = .ok (if b = 1 then .stable else .unstable)) := by
  refine ⟨?_, ⟨rfl, rfl, rfl, rfl⟩, ?_, ⟨rfl, rfl⟩, ?_⟩
  · intro b hb
    match b, hb with
    | (k + 4), _ => rfl
  · intro b hb
    match b, hb with
    | (k + 2), _ => rfl
  · intro b
    match b with
    | 0 => rfl
    | 1 => rfl
    | (n + 2) => rfl

/-- Witness for C7's amended statement at the concrete bytes 9, 7 and 3. -/
theorem enumerant_decoders_closed_amended_witness :
    AQIAccuracy.from_byte 9 = .error (.invalidAQIAccuracy 9)
    ∧ ParticleDataValidity.from_byte 7 = .error (.invalidParticleDataValidity 7)
    ∧ SoundMeasurementStability.from_bytes [3] = .ok (if 3 = 1 then .stable else .unstable) :=
  ⟨enumerant_decoders_closed_amended.1 9 (by decide),
   enumerant_decoders_closed_amended.2.2.1 7 (by decide),
   enumerant_decoders_closed_amended.2.2.2.2 3⟩

/-! ## C8: ready-wait poll cadence -/

/-- C8 (code bug): the model returns success immediately with no sleep
when the line is already asserted, and with no timeout it never returns
`ReadyTimeoutExceeded`; but contrary to the claim (and the function's
own doc comment) the 10ms inter-poll sleep happens only when a timeout
is configured — with `timeout = None` and the line deasserted for the
first two polls the loop makes three polls and records zero sleeps,
whereas the same readiness trace with a timeout records the 10ms sleeps;
a configured-and-exceeded timeout fails with `ReadyTimeoutExceeded`. -/
theorem wait_for_ready_poll_cadence :
    (∀ t : Option Nat, ∀ fuel : Nat,
       wait_poll_model (fun _ => true) t (fuel + 1) 0 0 [] = .ok 1 [])
    ∧ (∀ readyAt : Nat → Bool, ∀ fuel n elapsed : Nat, ∀ acc sleeps : List Nat,
       wait_poll_model readyAt none fuel n elapsed acc ≠ .timedOut sleeps)
    ∧ wait_poll_model (fun n => decide (2 ≤ n)) none 5 0 0 [] = .ok 3 []
    ∧ wait_poll_model (fun n => decide (2 ≤ n)) (some 1000) 5 0 0 [] = .ok 3 [10, 10]
    ∧ wait_poll_model (fun _ => false) (some 25) 10 0 0 [] = .timedOut [10, 10, 10] := by
  refine ⟨fun t fuel => rfl, ?_, rfl, rfl, rfl⟩
  intro readyAt fuel
  induction fuel with
  | zero => intro n elapsed acc sleeps; simp [wait_poll_model]
  | succ f ih =>
    intro n elapsed acc sleeps
    simp only [wait_poll_model]
    split
    · simp
    · exact ih (n + 1) elapsed acc sleeps

/-! ## C10: status-read atomicity -/

/-- C10: if the status read fails (any transport or decode-validation
error inside `DeviceStatus::read`), the whole session — in particular
the cached status — is left unchanged; the cache is overwritten with
`Some st` exactly when the full status read succeeds with `st`. -/
theorem read_status_atomic :
    (∀ s : Sess, ∀ e : MError, (read_status s).1 = .error e → (read_status s).2 = s)
    ∧ (∀ s : Sess, ∀ st : DeviceStatus,
        (read_status s).1 = .ok st → (read_status s).2.status = some st) := by
  constructor
  · intro s e h
    unfold read_status at h ⊢
    cases hr : DeviceStatus.read s.dev with
    | error e' => simp [hr]
    | ok st => rw [hr] at h; simp at h
  · intro s st h
    unfold read_status at h ⊢
    cases hr : DeviceStatus.read s.dev with
    | error e' => rw [hr] at h; simp at h
    | ok st' =>
      rw [hr] at h
      simp at h
      simp [hr, h]

/-- Witness for C10 on a device whose particle-sensor byte is the
invalid value 5: the failing status read leaves the session unchanged. -/
theorem read_status_atomic_witness :
    (read_status ⟨badParticleDev, none⟩).2 = ⟨badParticleDev, none⟩ :=
  read_status_atomic.1 ⟨badParticleDev, none⟩ (.invalidParticleSensorMode 5) rfl

/-! ## C3: execute_measurement guards -/

/-- C3: `execute_measurement` fails with `StatusMissing` when the session
has no cached status and with `InvalidMode {current, required=Standby}`
when the cached mode is `Cycle(_)`, leaving the session (and hence the
write trace) untouched in both cases; the 0xE1 trigger is written (with
its 6ms settle) exactly when the cached mode is standby and the ready
line is asserted. -/
theorem execute_measurement_guards :
    (∀ s : Sess, s.status = none → execute_measurement s = (.error .statusMissing, s))
    ∧ (∀ s : Sess, ∀ st : DeviceStatus, ∀ p : CyclePeriod,
        s.status = some st → st.mode = .cycle p →
        execute_measurement s = (.error (.invalidMode (.cycle p) .standby), s))
    ∧ (∀ s : Sess, (execute_measurement s).2.dev.trace ≠ s.dev.trace →
        (∃ st, s.status = some st ∧ st.mode = .standby) ∧ is_ready s = .ok true)
    ∧ (∀ s : Sess, ∀ st : DeviceStatus, s.status = some st → st.mode = .standby →
        is_ready s = .ok true →
        (execute_measurement s).2.dev.trace = s.dev.trace ++ [.writeByte 0xE1, .sleepMs 6]
        ∧ (execute_measurement s).1 = .ok ()) := by
  refine ⟨?_, ?_, ?_, ?_⟩
  · intro s h
    simp [execute_measurement, h]
  · intro s st p hs hm
    simp [execute_measurement, hs, hm]
  · intro s h
    cases hs : s.status with
    | none => simp [execute_measurement, hs] at h
    | some st =>
      cases hm : st.mode with
      | cycle p => simp [execute_measurement, hs, hm] at h
      | standby =>
        cases he : ensure_ready s with
        | error e => simp [execute_measurement, hs, hm, he] at h
        | ok u =>
          cases u
          exact ⟨⟨st, rfl, hm⟩, (ensure_ready_ok_iff s).mp he⟩
  · intro s st hs hm hr
    have he : ensure_ready s = .ok () := (ensure_ready_ok_iff s).mpr hr
    simp [execute_measurement, hs, hm, he, Dev.smbus_write_byte, Dev.sleep]

/-- Witness for C3: a session with no cached status fails with
`StatusMissing`; one cached in a cycle mode fails with `InvalidMode`;
one cached in standby on a ready device writes the 0xE1 trigger. -/
theorem execute_measurement_guards_witness :
    execute_measurement ⟨sampleDev 1 0, none⟩ = (.error .statusMissing, ⟨sampleDev 1 0, none⟩)
    ∧ execute_measurement ⟨sampleDev 1 0, some (sampleStatus (.cycle .period0))⟩
        = (.error (.invalidMode (.cycle .period0) .standby),
           ⟨sampleDev 1 0, some (sampleStatus (.cycle .period0))⟩)
    ∧ (execute_measurement ⟨sampleDev 0 0, some (sampleStatus .standby)⟩).2.dev.trace
        = [.writeByte 0xE1, .sleepMs 6] :=
  ⟨execute_measurement_guards.1 _ rfl,
   execute_measurement_guards.2.1 _ _ .period0 rfl rfl,
   (execute_measurement_guards.2.2.2 ⟨sampleDev 0 0, some (sampleStatus .standby)⟩
      (sampleStatus .standby) rfl rfl rfl).1⟩

/-! ## C2: read strategies terminate after the first error -/

theorem metric_iter_next_latched {V : Type} (o : MetricStepOracle V) :
    metric_iter_next o true = (none, true) := rfl

theorem metric_iter_next_err {V : Type} (o : MetricStepOracle V) (b : Bool) (e : MError)
    (h : (metric_iter_next o b).1 = some (.error e)) : (metric_iter_next o b).2 = true := by
  cases b with
  | true => simp [metric_iter_next] at h
  | false =>
    unfold metric_iter_next at h ⊢
    cases hw : o.waitReady with
    | error e' => simp [hw]
    | ok u =>
      cases u
      cases hc : (do o.execMeasurement; o.waitReadyAgain; o.readMetric : Except MError V) with
      | ok v =>
        exfalso
        simp [hw, hc] at h
      | error e' => simp [hw, hc]

theorem metric_iter_state_latched {V : Type} (os : Nat → MetricStepOracle V) (n : Nat)
    (h : metric_iter_state os n = true) :
    ∀ m, n ≤ m → metric_iter_state os m = true := by
  intro m hm
  induction m with
  | zero =>
    have : n = 0 := Nat.le_zero.mp hm
    subst this
    exact h
  | succ k ih =>
    rcases Nat.lt_or_ge n (k + 1) with hlt | hge
    · have hk : metric_iter_state os k = true := by
        rcases Nat.lt_or_ge n k with h1 | h2
        · exact ih (Nat.le_of_lt h1)
        · have : n = k := Nat.le_antisymm (Nat.lt_succ_iff.mp hlt) h2
          subst this
          exact h
      show (metric_iter_next (os k) (metric_iter_state os k)).2 = true
      rw [hk, metric_iter_next_latched]
    · have : n = k + 1 := Nat.le_antisymm hm hge
      subst this
      exact h

theorem cycle_iter_next_latched {V : Type} (o : CycleStepOracle V) (f : Bool) :
    cycle_iter_next o f true = (none, f, true) := rfl

theorem cycle_iter_next_err {V : Type} (o : CycleStepOracle V) (f b : Bool) (e : MError)
    (h : (cycle_iter_next o f b).1 = some (.error e)) : (cycle_iter_next o f b).2.2 = true := by
  cases b with
  | true => simp [cycle_iter_next] at h
  | false =>
    unfold cycle_iter_next at h ⊢
    cases f with
    | true =>
      cases hs : o.setMode with
      | error e' => simp [hs]
      | ok st =>
        cases hr : o.readFirst with
        | error e' => simp [hs, hr]
        | ok v =>
          exfalso
          simp [hs, hr] at h
    | false =>
      cases hc : (do o.waitNotReady; o.waitReady; o.readMetric : Except MError V) with
      | ok v =>
        exfalso
        simp [hc] at h
      | error e' => simp [hc]

theorem cycle_iter_state_latched {V : Type} (os : Nat → CycleStepOracle V) (n : Nat)
    (h : (cycle_iter_state os n).2 = true) :
    ∀ m, n ≤ m → (cycle_iter_state os m).2 = true := by
  intro m hm
  induction m with
  | zero =>
    have : n = 0 := Nat.le_zero.mp hm
    subst this
    exact h
  | succ k ih =>
    rcases Nat.lt_or_ge n (k + 1) with hlt | hge
    · have hk : (cycle_iter_state os k).2 = true := by
        rcases Nat.lt_or_ge n k with h1 | h2
        · exact ih (Nat.le_of_lt h1)
        · have : n = k := Nat.le_antisymm (Nat.lt_succ_iff.mp hlt) h2
          subst this
          exact h
      show (cycle_iter_next (os k) (cycle_iter_state os k).1 (cycle_iter_state os k).2).2.2 = true
      rw [hk, cycle_iter_next_latched]
    · have : n = k + 1 := Nat.le_antisymm hm hge
      subst this
      exact h

/-- C2: for both read-strategy iterators, once any step yields an `Err`
item every subsequent call to `next()` returns `None` — the error is
yielded exactly once and the sequence then produces no further items,
however many more steps are taken and whatever the device does. -/
theorem iterators_terminate_after_error :
    (∀ (V : Type) (os : Nat → MetricStepOracle V) (n : Nat) (e : MError),
       metric_iter_out os n = some (.error e) →
       ∀ m, n < m → metric_iter_out os m = none)
    ∧ (∀ (V : Type) (os : Nat → CycleStepOracle V) (n : Nat) (e : MError),
       cycle_iter_out os n = some (.error e) →
       ∀ m, n < m → cycle_iter_out os m = none) := by
  constructor
  · intro V os n e h m hm
    have hn1 : metric_iter_state os (n + 1) = true :=
      metric_iter_next_err (os n) (metric_iter_state os n) e h
    have hstate : metric_iter_state os m = true :=
      metric_iter_state_latched os (n + 1) hn1 m hm
    show (metric_iter_next (os m) (metric_iter_state os m)).1 = none
    rw [hstate, metric_iter_next_latched]
  · intro V os n e h m hm
    have hn1 : (cycle_iter_state os (n + 1)).2 = true :=
      cycle_iter_next_err (os n) (cycle_iter_state os n).1 (cycle_iter_state os n).2 e h
    have hstate : (cycle_iter_state os m).2 = true :=
      cycle_iter_state_latched os (n + 1) hn1 m hm
    show (cycle_iter_next (os m) (cycle_iter_state os m).1 (cycle_iter_state os m).2).1 = none
    rw [hstate, cycle_iter_next_latched]

/-- Witness for C2: against a device whose first operation fails, step 0
yields the error and step 1 yields nothing, for both iterators. -/
theorem iterators_terminate_after_error_witness :
    metric_iter_out (fun _ => failingMetricStep) 1 = none
    ∧ cycle_iter_out (fun _ => failingCycleStep) 1 = none :=
  ⟨iterators_terminate_after_error.1 Unit (fun _ => failingMetricStep) 0 .notReady rfl 1 (by decide),
   iterators_terminate_after_error.2 Unit (fun _ => failingCycleStep) 0 .notReady rfl 1 (by decide)⟩

/-! ## Lemmas about the ready-wait loops and the session state -/

theorem is_ready_of_pin {s : Sess} (h : s.dev.pin = some 0) : is_ready s = .ok true := by
  simp [is_ready, h]

theorem wait_for_ready_aux_zero (t : Option Nat) (e : Nat) (s : Sess) :
    wait_for_ready_aux t 0 e s = (.spin, s) := rfl

theorem wait_for_ready_aux_succ (t : Option Nat) (f e : Nat) (s : Sess) :
    wait_for_ready_aux t (f + 1) e s =
      match is_ready s with
      | .error e' => (.err e', s)
      | .ok true => (.ok (), s)
      | .ok false =>
        match t with
        | some t0 =>
          if e > t0 then (.err .readyTimeoutExceeded, s)
          else wait_for_ready_aux t f (e + 10) { s with dev := s.dev.sleep 10 }
        | none => wait_for_ready_aux t f e s := rfl

theorem wait_for_not_ready_aux_zero (t : Option Nat) (e : Nat) (s : Sess) :
    wait_for_not_ready_aux t 0 e s = (.spin, s) := rfl

theorem wait_for_not_ready_aux_succ (t : Option Nat) (f e : Nat) (s : Sess) :
    wait_for_not_ready_aux t (f + 1) e s =
      match is_ready s with
      | .error e' => (.err e', s)
      | .ok false => (.ok (), s)
      | .ok true =>
        match t with
        | some t0 =>
          if e > t0 then (.err .readyTimeoutExceeded, s)
          else wait_for_not_ready_aux t f (e + 10) { s with dev := s.dev.sleep 10 }
        | none => wait_for_not_ready_aux t f e s := rfl

theorem wait_ready_first {s : Sess} (h : s.dev.pin = some 0) (t : Option Nat) (f e : Nat) :
    wait_for_ready_aux t (f + 1) e s = (.ok (), s) := by
  rw [wait_for_ready_aux_succ, is_ready_of_pin h]

theorem wait_ready_timeout_first {s : Sess} (h : s.dev.pin = some 0) (t : Option Nat) (f : Nat) :
    wait_for_ready_timeout (f + 1) t s = (.ok (), s) :=
  wait_ready_first h t f 0

theorem wait_ready_not_ok {t : Option Nat} :
    ∀ (f e : Nat) (s : Sess), s.dev.pin ≠ some 0 →
    (wait_for_ready_aux t f e s).1 ≠ .ok () := by
  intro f
  induction f with
  | zero => intro e s h; simp [wait_for_ready_aux_zero]
  | succ k ih =>
    intro e s h
    rw [wait_for_ready_aux_succ]
    cases hp : s.dev.pin with
    | none => simp [is_ready, hp]
    | some v =>
      have hv : ¬(v = 0) := fun hv0 => h (by rw [hp, hv0])
      simp only [is_ready, hp, decide_eq_false hv]
      cases t with
      | none => exact ih e s h
      | some t0 =>
        show (if e > t0 then ((.err .readyTimeoutExceeded, s) : Out Unit × Sess)
              else wait_for_ready_aux (some t0) k (e + 10) { s with dev := s.dev.sleep 10 }).1
             ≠ .ok ()
        split
        · simp
        · exact ih (e + 10) { s with dev := s.dev.sleep 10 } h

theorem wait_ready_ok_inv {t : Option Nat} {f e : Nat} {s : Sess}
    (h : (wait_for_ready_aux t f e s).1 = .ok ()) :
    s.dev.pin = some 0 ∧ (wait_for_ready_aux t f e s).2 = s := by
  by_cases hp : s.dev.pin = some 0
  · refine ⟨hp, ?_⟩
    cases f with
    | zero => simp [wait_for_ready_aux_zero] at h
    | succ k => rw [wait_ready_first hp t k e]
  · exact absurd h (wait_ready_not_ok f e s hp)

theorem wait_ready_aux_trace_only (t : Option Nat) :
    ∀ (f e : Nat) (s : Sess), ∃ tr,
      (wait_for_ready_aux t f e s).2 = { s with dev := { s.dev with trace := tr } } := by
  intro f
  induction f with
  | zero => intro e s; exact ⟨s.dev.trace, rfl⟩
  | succ k ih =>
    intro e s
    rw [wait_for_ready_aux_succ]
    cases hr : is_ready s with
    | error e' => exact ⟨s.dev.trace, rfl⟩
    | ok b =>
      cases b with
      | true => exact ⟨s.dev.trace, rfl⟩
      | false =>
        cases t with
        | none => exact ih e s
        | some t0 =>
          show ∃ tr,
            (if e > t0 then ((.err .readyTimeoutExceeded, s) : Out Unit × Sess)
             else wait_for_ready_aux (some t0) k (e + 10) { s with dev := s.dev.sleep 10 }).2
            = { s with dev := { s.dev with trace := tr } }
          split
          · exact ⟨s.dev.trace, rfl⟩
          · exact ih (e + 10) { s with dev := s.dev.sleep 10 }

theorem wait_not_ready_aux_trace_only (t : Option Nat) :
    ∀ (f e : Nat) (s : Sess), ∃ tr,
      (wait_for_not_ready_aux t f e s).2 = { s with dev := { s.dev with trace := tr } } := by
  intro f
  induction f with
  | zero => intro e s; exact ⟨s.dev.trace, rfl⟩
  | succ k ih =>
    intro e s
    rw [wait_for_not_ready_aux_succ]
    cases hr : is_ready s with
    | error e' => exact ⟨s.dev.trace, rfl⟩
    | ok b =>
      cases b with
      | false => exact ⟨s.dev.trace, rfl⟩
      | true =>
        cases t with
        | none => exact ih e s
        | some t0 =>
          show ∃ tr,
            (if e > t0 then ((.err .readyTimeoutExceeded, s) : Out Unit × Sess)
             else wait_for_not_ready_aux (some t0) k (e + 10) { s with dev := s.dev.sleep 10 }).2
            = { s with dev := { s.dev with trace := tr } }
          split
          · exact ⟨s.dev.trace, rfl⟩
          · exact ih (e + 10) { s with dev := s.dev.sleep 10 }

theorem wait_ready_aux_status (t : Option Nat) (f e : Nat) (s : Sess) :
    (wait_for_ready_aux t f e s).2.status = s.status := by
  obtain ⟨tr, h⟩ := wait_ready_aux_trace_only t f e s
  rw [h]

theorem wait_not_ready_aux_status (t : Option Nat) (f e : Nat) (s : Sess) :
    (wait_for_not_ready_aux t f e s).2.status = s.status := by
  obtain ⟨tr, h⟩ := wait_not_ready_aux_trace_only t f e s
  rw [h]

theorem set_mode_naive_pin (m : OperationalMode) (s : Sess) :
    (set_mode_naive m s).dev.pin = s.dev.pin := by
  cases m <;> rfl

theorem set_mode_naive_status (m : OperationalMode) (s : Sess) :
    (set_mode_naive m s).status = s.status := by
  cases m <;> rfl

theorem set_mode_naive_blocks (m : OperationalMode) (s : Sess) :
    (set_mode_naive m s).dev.blocks = s.dev.blocks := by
  cases m <;> rfl

theorem set_mode_naive_standby_regs (s : Sess) (r : Nat) :
    (set_mode_naive .standby s).dev.regs r
      = if r = 0x8A then some 0 else s.dev.regs r := by
  simp [set_mode_naive, Dev.smbus_write_byte]

theorem set_mode_naive_cycle_regs (p : CyclePeriod) (s : Sess) (r : Nat) :
    (set_mode_naive (.cycle p) s).dev.regs r
      = if r = 0x8A then some 1
        else if r = 0x89 then some p.to_value
        else s.dev.regs r := by
  simp [set_mode_naive, Dev.smbus_write_byte, Dev.smbus_write_byte_data, Dev.sleep]

theorem set_mode_naive_standby_trace (s : Sess) :
    (set_mode_naive .standby s).dev.trace = s.dev.trace ++ [.writeByte 0xE5] := by
  simp [set_mode_naive, Dev.smbus_write_byte]

theorem set_mode_naive_cycle_trace (p : CyclePeriod) (s : Sess) :
    (set_mode_naive (.cycle p) s).dev.trace
      = s.dev.trace
        ++ [.writeByteData 0x89 p.to_value, .sleepMs 6, .writeByte 0xE4, .sleepMs 11] := by
  simp [set_mode_naive, Dev.smbus_write_byte, Dev.smbus_write_byte_data, Dev.sleep]

/-! ## Lemmas about status reads over changed mode registers -/

theorem read_particle_congr {d d' : Dev} (h : d'.regs 0x07 = d.regs 0x07) :
    read_particle d' = read_particle d := by
  unfold read_particle Dev.smbus_read_byte_data
  rw [h]

theorem light_interrupt_read_congr {d d' : Dev}
    (h83 : d'.regs 0x83 = d.regs 0x83) (h84 : d'.regs 0x84 = d.regs 0x84)
    (hb : d'.blocks 0x82 3 = d.blocks 0x82 3) :
    LightInterrupt.read d' = LightInterrupt.read d := by
  unfold LightInterrupt.read Dev.smbus_read_byte_data Dev.smbus_read_i2c_block_data
  rw [h83, h84, hb]

theorem read_light_int_congr {d d' : Dev}
    (h81 : d'.regs 0x81 = d.regs 0x81)
    (h83 : d'.regs 0x83 = d.regs 0x83) (h84 : d'.regs 0x84 = d.regs 0x84)
    (hb : d'.blocks 0x82 3 = d.blocks 0x82 3) :
    read_light_int d' = read_light_int d := by
  unfold read_light_int Dev.smbus_read_byte_data
  rw [h81, light_interrupt_read_congr h83 h84 hb]

theorem sound_interrupt_read_congr {d d' : Dev}
    (h87 : d'.regs 0x87 = d.regs 0x87) (hb : d'.blocks 0x86 2 = d.blocks 0x86 2) :
    SoundInterrupt.read d' = SoundInterrupt.read d := by
  unfold SoundInterrupt.read Dev.smbus_read_byte_data Dev.smbus_read_i2c_block_data
  rw [h87, hb]

theorem read_sound_int_congr {d d' : Dev}
    (h86 : d'.regs 0x86 = d.regs 0x86)
    (h87 : d'.regs 0x87 = d.regs 0x87) (hb : d'.blocks 0x86 2 = d.blocks 0x86 2) :
    read_sound_int d' = read_sound_int d := by
  unfold read_sound_int Dev.smbus_read_byte_data
  rw [h86, sound_interrupt_read_congr h87 hb]

theorem read_mode_cycle {d : Dev} {p : CyclePeriod}
    (h8A : d.regs 0x8A = some 1) (h89 : d.regs 0x89 = some p.to_value) :
    read_mode d = .ok (.cycle p) := by
  unfold read_mode Dev.smbus_read_byte_data
  rw [h8A, h89]
  simp [cyclePeriod_from_to]

theorem read_mode_standby {d : Dev} (h8A : d.regs 0x8A = some 0) :
    read_mode d = .ok .standby := by
  unfold read_mode Dev.smbus_read_byte_data
  rw [h8A]

theorem device_status_read_mk {d : Dev} {ps : ParticleSensorMode}
    {li : InterruptStatus LightInterrupt} {si : InterruptStatus SoundInterrupt}
    {m : OperationalMode}
    (hp : read_particle d = .ok ps) (hl : read_light_int d = .ok li)
    (hs : read_sound_int d = .ok si) (hm : read_mode d = .ok m) :
    DeviceStatus.read d = .ok ⟨ps, li, si, m⟩ := by
  unfold DeviceStatus.read
  rw [hp, hl, hs, hm]

theorem device_status_read_parts {d : Dev} {st : DeviceStatus}
    (h : DeviceStatus.read d = .ok st) :
    read_particle d = .ok st.particle_sensor
    ∧ read_light_int d = .ok st.light_int
    ∧ read_sound_int d = .ok st.sound_int
    ∧ read_mode d = .ok st.mode := by
  unfold DeviceStatus.read at h
  cases hp : read_particle d with
  | error e => rw [hp] at h; simp at h
  | ok ps =>
    rw [hp] at h
    cases hl : read_light_int d with
    | error e => rw [hl] at h; simp at h
    | ok li =>
      rw [hl] at h
      cases hs : read_sound_int d with
      | error e => rw [hs] at h; simp at h
      | ok si =>
        rw [hs] at h
        cases hm : read_mode d with
        | error e => rw [hm] at h; simp at h
        | ok m =>
          rw [hm] at h
          simp at h
          subst h
          exact ⟨rfl, rfl, rfl, rfl⟩

theorem read_after_naive_standby {s : Sess} {st : DeviceStatus}
    (h : DeviceStatus.read s.dev = .ok st) :
    DeviceStatus.read (set_mode_naive .standby s).dev = .ok { st with mode := .standby } := by
  obtain ⟨hp, hl, hs, _⟩ := device_status_read_parts h
  refine device_status_read_mk ?_ ?_ ?_ ?_
  · rw [read_particle_congr (d := s.dev) (by simp [set_mode_naive_standby_regs])]
    exact hp
  · rw [read_light_int_congr (d := s.dev) (by simp [set_mode_naive_standby_regs])
      (by simp [set_mode_naive_standby_regs]) (by simp [set_mode_naive_standby_regs])
      (by rw [set_mode_naive_blocks])]
    exact hl
  · rw [read_sound_int_congr (d := s.dev) (by simp [set_mode_naive_standby_regs])
      (by simp [set_mode_naive_standby_regs]) (by rw [set_mode_naive_blocks])]
    exact hs
  · exact read_mode_standby (by simp [set_mode_naive_standby_regs])

theorem read_after_naive_cycle {s : Sess} {st : DeviceStatus} (p : CyclePeriod)
    (h : DeviceStatus.read s.dev = .ok st) :
    DeviceStatus.read (set_mode_naive (.cycle p) s).dev = .ok { st with mode := .cycle p } := by
  obtain ⟨hp, hl, hs, _⟩ := device_status_read_parts h
  refine device_status_read_mk ?_ ?_ ?_ ?_
  · rw [read_particle_congr (d := s.dev) (by simp [set_mode_naive_cycle_regs])]
    exact hp
  · rw [read_light_int_congr (d := s.dev) (by simp [set_mode_naive_cycle_regs])
      (by simp [set_mode_naive_cycle_regs]) (by simp [set_mode_naive_cycle_regs])
      (by rw [set_mode_naive_blocks])]
    exact hl
  · rw [read_sound_int_congr (d := s.dev) (by simp [set_mode_naive_cycle_regs])
      (by simp [set_mode_naive_cycle_regs]) (by rw [set_mode_naive_blocks])]
    exact hs
  · exact read_mode_cycle (by simp [set_mode_naive_cycle_regs])
      (by simp [set_mode_naive_cycle_regs])

/-! ## Lemmas about read_status, the transition dispatch and the finish tail -/

theorem read_status_of_read {s : Sess} {st : DeviceStatus}
    (h : DeviceStatus.read s.dev = .ok st) :
    read_status s = (.ok st, { s with status := some st }) := by
  unfold read_status
  rw [h]

theorem read_status_dev (s : Sess) : (read_status s).2.dev = s.dev := by
  unfold read_status
  cases DeviceStatus.read s.dev <;> rfl

theorem read_status_ok_inv {s s2 : Sess} {st : DeviceStatus}
    (h : read_status s = (.ok st, s2)) :
    DeviceStatus.read s.dev = .ok st ∧ s2 = { s with status := some st } := by
  unfold read_status at h
  cases hr : DeviceStatus.read s.dev with
  | error e => rw [hr] at h; simp at h
  | ok st' =>
    rw [hr] at h
    simp at h
    obtain ⟨h1, h2⟩ := h
    subst h1
    exact ⟨rfl, h2.symm⟩

theorem read_status_err_inv {s s2 : Sess} {e : MError}
    (h : read_status s = (.error e, s2)) : s2 = s := by
  unfold read_status at h
  cases hr : DeviceStatus.read s.dev with
  | error e' => rw [hr] at h; simp at h; exact h.2.symm
  | ok st' => rw [hr] at h; simp at h

theorem set_mode_finish_ready {s : Sess} (hpin : s.dev.pin = some 0) (f : Nat) (t : Option Nat) :
    set_mode_finish (f + 1) t s =
      match read_status s with
      | (.ok st, s8) => (.ok st, s8)
      | (.error e, s8) => (.err e, s8) := by
  unfold set_mode_finish
  rw [wait_ready_timeout_first hpin]

theorem set_mode_finish_ready_ok {s : Sess} {st : DeviceStatus}
    (hpin : s.dev.pin = some 0) (hread : DeviceStatus.read s.dev = .ok st) (f : Nat)
    (t : Option Nat) :
    set_mode_finish (f + 1) t s = (.ok st, { s with status := some st }) := by
  rw [set_mode_finish_ready hpin, read_status_of_read hread]

theorem set_mode_finish_ready_dev {s : Sess} (hpin : s.dev.pin = some 0) (f : Nat)
    (t : Option Nat) :
    (set_mode_finish (f + 1) t s).2.dev = s.dev := by
  rw [set_mode_finish_ready hpin]
  cases hr : read_status s with
  | mk o s8 =>
    have hd := read_status_dev s
    rw [hr] at hd
    cases o <;> exact hd

theorem set_mode_finish_ok_inv {fuel : Nat} {t : Option Nat} {s s' : Sess} {st' : DeviceStatus}
    (h : set_mode_finish fuel t s = (.ok st', s')) :
    s.dev.pin = some 0 ∧ s' = { s with status := some st' }
    ∧ DeviceStatus.read s.dev = .ok st' := by
  cases fuel with
  | zero => simp [set_mode_finish, wait_for_ready_timeout, wait_for_ready_aux_zero] at h
  | succ f =>
    by_cases hpin : s.dev.pin = some 0
    · rw [set_mode_finish_ready hpin f t] at h
      cases hr : read_status s with
      | mk o2 s8 =>
        rw [hr] at h
        cases o2 with
        | error e => simp at h
        | ok st'' =>
          simp at h
          obtain ⟨h1, h2⟩ := h
          subst h1
          subst h2
          obtain ⟨hread, hs8⟩ := read_status_ok_inv hr
          exact ⟨hpin, hs8, hread⟩
    · exfalso
      unfold set_mode_finish at h
      cases hw : wait_for_ready_timeout (f + 1) t s with
      | mk o s7 =>
        rw [hw] at h
        cases o with
        | err e => simp at h
        | spin => simp at h
        | ok u =>
          cases u
          have hx : wait_for_ready_aux t (f + 1) 0 s = (.ok (), s7) := hw
          exact hpin (wait_ready_ok_inv (by rw [hx])).1

theorem set_mode_transition_ss (fuel : Nat) (t : Option Nat) (s : Sess) :
    set_mode_transition fuel .standby .standby t s = (.ok (), s) := rfl

theorem set_mode_transition_cc_eq (fuel : Nat) (t : Option Nat) (s : Sess) (a : CyclePeriod) :
    set_mode_transition fuel (.cycle a) (.cycle a) t s = (.ok (), s) := by
  simp [set_mode_transition]

theorem set_mode_transition_sc (fuel : Nat) (t : Option Nat) (s : Sess) (p : CyclePeriod) :
    set_mode_transition fuel .standby (.cycle p) t s
      = (.ok (), set_mode_naive (.cycle p) s) := rfl

theorem set_mode_transition_cs (fuel : Nat) (t : Option Nat) (s : Sess) (a : CyclePeriod) :
    set_mode_transition fuel (.cycle a) .standby t s
      = (.ok (), set_mode_naive .standby s) := rfl

theorem set_mode_transition_cc_ne {s : Sess} (hpin : s.dev.pin = some 0)
    {a b : CyclePeriod} (hab : a ≠ b) (f : Nat) (t : Option Nat) :
    set_mode_transition (f + 1) (.cycle a) (.cycle b) t s
      = (.ok (), set_mode_naive (.cycle b) (set_mode_naive .standby s)) := by
  simp only [set_mode_transition]
  rw [if_neg hab,
    wait_ready_timeout_first (by rw [set_mode_naive_pin]; exact hpin) t f]

theorem set_mode_transition_ok_inv {fuel : Nat} {t : Option Nat} {s s6 : Sess}
    {c m : OperationalMode} {st0 : DeviceStatus}
    (h : set_mode_transition fuel c m t s = (.ok (), s6))
    (hread : DeviceStatus.read s.dev = .ok st0) (hc : st0.mode = c) :
    s6.dev.pin = s.dev.pin ∧ ∃ st1, DeviceStatus.read s6.dev = .ok st1 ∧ st1.mode = m := by
  cases c with
  | standby =>
    cases m with
    | standby =>
      rw [set_mode_transition_ss] at h
      simp at h
      subst h
      exact ⟨rfl, st0, hread, hc⟩
    | cycle p =>
      rw [set_mode_transition_sc] at h
      simp at h
      subst h
      exact ⟨set_mode_naive_pin _ _, { st0 with mode := .cycle p },
        read_after_naive_cycle p hread, rfl⟩
  | cycle a =>
    cases m with
    | standby =>
      rw [set_mode_transition_cs] at h
      simp at h
      subst h
      exact ⟨set_mode_naive_pin _ _, { st0 with mode := .standby },
        read_after_naive_standby hread, rfl⟩
    | cycle b =>
      by_cases hab : a = b
      · subst hab
        rw [set_mode_transition_cc_eq] at h
        simp at h
        subst h
        exact ⟨rfl, st0, hread, hc⟩
      · simp only [set_mode_transition, if_neg hab] at h
        cases hw : wait_for_ready_timeout fuel t (set_mode_naive .standby s) with
        | mk o s4 =>
          rw [hw] at h
          cases o with
          | err e => simp at h
          | spin => simp at h
          | ok u =>
            cases u
            simp at h
            have hx : wait_for_ready_aux t fuel 0 (set_mode_naive .standby s) = (.ok (), s4) := hw
            have hs4 : s4 = set_mode_naive .standby s := by
              have h2 := (wait_ready_ok_inv (by rw [hx])).2
              rw [hx] at h2
              exact h2
            subst hs4
            subst h
            refine ⟨?_, { st0 with mode := .cycle b }, ?_, rfl⟩
            · rw [set_mode_naive_pin, set_mode_naive_pin]
            · exact @read_after_naive_cycle (set_mode_naive .standby s)
                { st0 with mode := .standby } b (read_after_naive_standby hread)

theorem set_mode_timeout_ready {s : Sess} (hpin : s.dev.pin = some 0) (f : Nat)
    (mode : OperationalMode) (t : Option Nat) :
    set_mode_timeout (f + 1) mode t s =
      match read_status s with
      | (.error e, s2) => (.err e, s2)
      | (.ok status, s2) =>
        match set_mode_transition (f + 1) status.mode mode t s2 with
        | (.err e, s6) => (.err e, s6)
        | (.spin, s6) => (.spin, s6)
        | (.ok (), s6) => set_mode_finish (f + 1) t s6 := by
  unfold set_mode_timeout
  rw [wait_ready_timeout_first hpin]

theorem set_mode_ok_inv {fuel : Nat} {mode : OperationalMode} {t : Option Nat}
    {s s' : Sess} {st' : DeviceStatus}
    (h : set_mode_timeout fuel mode t s = (.ok st', s')) :
    s'.dev.pin = some 0 ∧ DeviceStatus.read s'.dev = .ok st' ∧ st'.mode = mode := by
  cases fuel with
  | zero => simp [set_mode_timeout, wait_for_ready_timeout, wait_for_ready_aux_zero] at h
  | succ f =>
    by_cases hpin : s.dev.pin = some 0
    · rw [set_mode_timeout_ready hpin] at h
      cases hr : read_status s with
      | mk o2 s2 =>
        rw [hr] at h
        cases o2 with
        | error e => simp at h
        | ok st0 =>
          obtain ⟨hread0, hs2⟩ := read_status_ok_inv hr
          cases htr : set_mode_transition (f + 1) st0.mode mode t s2 with
          | mk o3 s6 =>
            have h' : (match set_mode_transition (f + 1) st0.mode mode t s2 with
                | (.err e, s6) => ((.err e : Out DeviceStatus), s6)
                | (.spin, s6) => (.spin, s6)
                | (.ok (), s6) => set_mode_finish (f + 1) t s6) = (.ok st', s') := h
            rw [htr] at h'
            cases o3 with
            | err e => simp at h'
            | spin => simp at h'
            | ok u =>
              cases u
              have hfin : set_mode_finish (f + 1) t s6 = (.ok st', s') := h'
              obtain ⟨hpin6, hs', hread6⟩ := set_mode_finish_ok_inv hfin
              have hread2 : DeviceStatus.read s2.dev = .ok st0 := by
                rw [hs2]; exact hread0
              obtain ⟨_, st1, hread6', hm1⟩ :=
                set_mode_transition_ok_inv htr hread2 rfl
              have hst : st' = st1 := by
                rw [hread6] at hread6'
                exact Except.ok.inj hread6'
              refine ⟨?_, ?_, ?_⟩
              · rw [hs']; exact hpin6
              · rw [hs']; exact hread6
              · rw [hst]; exact hm1
    · exfalso
      unfold set_mode_timeout at h
      cases hw : wait_for_ready_timeout (f + 1) t s with
      | mk o1 s1 =>
        rw [hw] at h
        cases o1 with
        | err e => simp at h
        | spin => simp at h
        | ok u =>
          cases u
          have hx : wait_for_ready_aux t (f + 1) 0 s = (.ok (), s1) := hw
          exact hpin (wait_ready_ok_inv (by rw [hx])).1

/-! ## C1: cycle-to-cycle mode changes route through standby -/

/-- C1: whenever `set_mode_timeout` runs on a ready device whose
read-back status is `Cycle(a)` with target `Cycle(b)`, `a ≠ b`, the
transport event trace it appends is exactly: the enter-standby command
0xE5, then (after the ready wait) the period-register write 0x89 with
`b`'s value, the 6ms settle, the enter-cycle command 0xE4 and its
settle — in particular 0xE5 appears in the trace before 0xE4. -/
theorem set_mode_cycle_to_cycle_standby_first :
    ∀ (fuel : Nat) (t : Option Nat) (s : Sess) (st : DeviceStatus) (a b : CyclePeriod),
    0 < fuel → s.dev.pin = some 0 →
    DeviceStatus.read s.dev = .ok st → st.mode = .cycle a → a ≠ b →
    (set_mode_timeout fuel (.cycle b) t s).2.dev.trace
      = s.dev.trace ++ [.writeByte 0xE5, .writeByteData 0x89 b.to_value, .sleepMs 6,
                        .writeByte 0xE4, .sleepMs 11]
    ∧ ∃ l1 l2 l3 : List Ev,
        (set_mode_timeout fuel (.cycle b) t s).2.dev.trace
          = l1 ++ [.writeByte 0xE5] ++ l2 ++ [.writeByte 0xE4] ++ l3 := by
  intro fuel t s st a b hfuel hpin hread hmode hab
  obtain ⟨f, rfl⟩ : ∃ f, fuel = f + 1 := ⟨fuel - 1, by omega⟩
  have hmain : (set_mode_timeout (f + 1) (.cycle b) t s).2.dev.trace
      = s.dev.trace ++ [.writeByte 0xE5, .writeByteData 0x89 b.to_value, .sleepMs 6,
                        .writeByte 0xE4, .sleepMs 11] := by
    rw [set_mode_timeout_ready hpin, read_status_of_read hread]
    show (match set_mode_transition (f + 1) st.mode (.cycle b) t { s with status := some st } with
          | (.err e, s6) => ((.err e : Out DeviceStatus), s6)
          | (.spin, s6) => (.spin, s6)
          | (.ok (), s6) => set_mode_finish (f + 1) t s6).2.dev.trace = _
    rw [hmode, set_mode_transition_cc_ne (s := { s with status := some st }) hpin hab f t]
    show (set_mode_finish (f + 1) t
        (set_mode_naive (.cycle b)
          (set_mode_naive .standby { s with status := some st }))).2.dev.trace = _
    rw [set_mode_finish_ready_dev
      (by rw [set_mode_naive_pin, set_mode_naive_pin]; exact hpin) f t]
    rw [set_mode_naive_cycle_trace, set_mode_naive_standby_trace]
    simp [List.append_assoc]
  refine ⟨hmain, s.dev.trace,
    [.writeByteData 0x89 b.to_value, .sleepMs 6], [.sleepMs 11], ?_⟩
  rw [hmain]
  simp [List.append_assoc]

/-- Witness for C1 on a ready sample device in `Cycle(Period0)` asked to
enter `Cycle(Period1)`. -/
theorem set_mode_cycle_to_cycle_standby_first_witness :
    (set_mode_timeout 1 (.cycle .period1) none ⟨sampleDev 1 0, none⟩).2.dev.trace
      = [.writeByte 0xE5, .writeByteData 0x89 1, .sleepMs 6, .writeByte 0xE4, .sleepMs 11] := by
  have h := (set_mode_cycle_to_cycle_standby_first 1 none ⟨sampleDev 1 0, none⟩
    (sampleStatus (.cycle .period0)) .period0 .period1
    (by decide) rfl rfl rfl (by decide)).1
  simpa [sampleDev, CyclePeriod.to_value] using h

/-! ## C6: set_mode is idempotent -/

/-- C6: when the requested mode equals the mode read back from the
device (equal by value, including the cycle period), `set_mode_timeout`
appends no transport events at all — and consequently a second
consecutive call with the same target after a successful call issues
zero additional transport writes. -/
theorem set_mode_idempotent :
    (∀ (fuel : Nat) (t : Option Nat) (s : Sess) (st : DeviceStatus) (mode : OperationalMode),
       0 < fuel → s.dev.pin = some 0 →
       DeviceStatus.read s.dev = .ok st → st.mode = mode →
       (set_mode_timeout fuel mode t s).2.dev.trace = s.dev.trace)
    ∧ (∀ (fuel : Nat) (t : Option Nat) (s s' : Sess) (st' : DeviceStatus)
         (mode : OperationalMode),
       0 < fuel →
       set_mode_timeout fuel mode t s = (.ok st', s') →
       (set_mode_timeout fuel mode t s').2.dev.trace = s'.dev.trace) := by
  have main : ∀ (f : Nat) (t : Option Nat) (s : Sess) (st : DeviceStatus)
      (mode : OperationalMode), s.dev.pin = some 0 →
      DeviceStatus.read s.dev = .ok st → st.mode = mode →
      (set_mode_timeout (f + 1) mode t s).2.dev.trace = s.dev.trace := by
    intro f t s st mode hpin hread hmode
    rw [set_mode_timeout_ready hpin, read_status_of_read hread]
    show (match set_mode_transition (f + 1) st.mode mode t { s with status := some st } with
          | (.err e, s6) => ((.err e : Out DeviceStatus), s6)
          | (.spin, s6) => (.spin, s6)
          | (.ok (), s6) => set_mode_finish (f + 1) t s6).2.dev.trace = s.dev.trace
    rw [hmode]
    cases mode with
    | standby =>
      rw [set_mode_transition_ss]
      show (set_mode_finish (f + 1) t { s with status := some st }).2.dev.trace = s.dev.trace
      rw [set_mode_finish_ready_dev (s := { s with status := some st }) hpin f t]
    | cycle p =>
      rw [set_mode_transition_cc_eq]
      show (set_mode_finish (f + 1) t { s with status := some st }).2.dev.trace = s.dev.trace
      rw [set_mode_finish_ready_dev (s := { s with status := some st }) hpin f t]
  constructor
  · intro fuel t s st mode hfuel hpin hread hmode
    obtain ⟨f, rfl⟩ : ∃ f, fuel = f + 1 := ⟨fuel - 1, by omega⟩
    exact main f t s st mode hpin hread hmode
  · intro fuel t s s' st' mode hfuel h
    obtain ⟨hpin', hread', hmode'⟩ := set_mode_ok_inv h
    obtain ⟨f, rfl⟩ : ∃ f, fuel = f + 1 := ⟨fuel - 1, by omega⟩
    exact main f t s' st' mode hpin' hread' hmode'

/-- Witness for C6 on a ready sample device already in `Cycle(Period0)`
asked for `Cycle(Period0)`: no transport event is appended. -/
theorem set_mode_idempotent_witness :
    (set_mode_timeout 1 (.cycle .period0) none ⟨sampleDev 1 0, none⟩).2.dev.trace = [] := by
  have h := set_mode_idempotent.1 1 none ⟨sampleDev 1 0, none⟩
    (sampleStatus (.cycle .period0)) (.cycle .period0) (by decide) rfl rfl rfl
  simpa [sampleDev] using h

/-! ## C9: the status cache, once set, is never cleared -/

theorem wait_ready_timeout_status (fuel : Nat) (t : Option Nat) (s : Sess) :
    (wait_for_ready_timeout fuel t s).2.status = s.status :=
  wait_ready_aux_status t fuel 0 s

theorem wait_not_ready_timeout_status (fuel : Nat) (t : Option Nat) (s : Sess) :
    (wait_for_not_ready_timeout fuel t s).2.status = s.status :=
  wait_not_ready_aux_status t fuel 0 s

theorem read_status_status_isSome {s : Sess} (h : s.status.isSome) :
    (read_status s).2.status.isSome := by
  unfold read_status
  cases hr : DeviceStatus.read s.dev with
  | error e => exact h
  | ok st => simp

theorem execute_measurement_status (s : Sess) :
    (execute_measurement s).2.status = s.status := by
  unfold execute_measurement
  cases hs : s.status with
  | none => exact hs
  | some st =>
    obtain ⟨ps, li, si, m⟩ := st
    cases m with
    | cycle p => exact hs
    | standby =>
      cases he : ensure_ready s with
      | error e => exact hs
      | ok u => cases u; rfl

theorem clear_light_interrupt_status (s : Sess) :
    (clear_light_interrupt s).2.status = s.status := by
  unfold clear_light_interrupt
  cases he : ensure_ready s with
  | error e => rfl
  | ok u => cases u; rfl

theorem clear_sound_interrupt_status (s : Sess) :
    (clear_sound_interrupt s).2.status = s.status := by
  unfold clear_sound_interrupt
  cases he : ensure_ready s with
  | error e => rfl
  | ok u => cases u; rfl

theorem read_metric_state (reg len : Nat) (s : Sess) : (read_metric reg len s).2 = s := by
  unfold read_metric
  cases he : ensure_ready s with
  | error e => rfl
  | ok u => cases u; rfl

theorem set_mode_transition_status (fuel : Nat) (c m : OperationalMode) (t : Option Nat)
    (s : Sess) : (set_mode_transition fuel c m t s).2.status = s.status := by
  cases c with
  | standby =>
    cases m with
    | standby => rw [set_mode_transition_ss]
    | cycle p => rw [set_mode_transition_sc]; exact set_mode_naive_status _ _
  | cycle a =>
    cases m with
    | standby => rw [set_mode_transition_cs]; exact set_mode_naive_status _ _
    | cycle b =>
      by_cases hab : a = b
      · subst hab; rw [set_mode_transition_cc_eq]
      · simp only [set_mode_transition, if_neg hab]
        cases hw : wait_for_ready_timeout fuel t (set_mode_naive .standby s) with
        | mk o s4 =>
          have hs4 : s4.status = s.status := by
            have hst := wait_ready_timeout_status fuel t (set_mode_naive .standby s)
            rw [hw] at hst
            rw [show ((o, s4).2.status = (set_mode_naive .standby s).status) = (s4.status = (set_mode_naive .standby s).status) from rfl] at hst
            rw [hst, set_mode_naive_status]
          cases o with
          | err e => exact hs4
          | spin => exact hs4
          | ok u =>
            cases u
            show (set_mode_naive (.cycle b) s4).status = s.status
            rw [set_mode_naive_status]
            exact hs4

theorem set_mode_finish_status_isSome {fuel : Nat} {t : Option Nat} {s : Sess}
    (h : s.status.isSome) : (set_mode_finish fuel t s).2.status.isSome := by
  unfold set_mode_finish
  cases hw : wait_for_ready_timeout fuel t s with
  | mk o s7 =>
    have hs7 : s7.status = s.status := by
      have hst := wait_ready_timeout_status fuel t s
      rw [hw] at hst
      exact hst
    cases o with
    | err e => show s7.status.isSome; rw [hs7]; exact h
    | spin => show s7.status.isSome; rw [hs7]; exact h
    | ok u =>
      cases u
      show (match read_status s7 with
            | (.ok st, s8) => ((.ok st : Out DeviceStatus), s8)
            | (.error e, s8) => (.err e, s8)).2.status.isSome
      cases hr : read_status s7 with
      | mk o2 s8 =>
        have h8 : (read_status s7).2.status.isSome :=
          read_status_status_isSome (by rw [hs7]; exact h)
        rw [hr] at h8
        cases o2 with
        | ok st => exact h8
        | error e => exact h8

theorem set_mode_timeout_status_isSome {fuel : Nat} {mode : OperationalMode} {t : Option Nat}
    {s : Sess} (h : s.status.isSome) : (set_mode_timeout fuel mode t s).2.status.isSome := by
  unfold set_mode_timeout
  cases hw : wait_for_ready_timeout fuel t s with
  | mk o1 s1 =>
    have hs1 : s1.status = s.status := by
      have hst := wait_ready_timeout_status fuel t s
      rw [hw] at hst
      exact hst
    cases o1 with
    | err e => show s1.status.isSome; rw [hs1]; exact h
    | spin => show s1.status.isSome; rw [hs1]; exact h
    | ok u =>
      cases u
      show (match read_status s1 with
            | (.error e, s2) => ((.err e : Out DeviceStatus), s2)
            | (.ok status, s2) =>
              match set_mode_transition fuel status.mode mode t s2 with
              | (.err e, s6) => (.err e, s6)
              | (.spin, s6) => (.spin, s6)
              | (.ok (), s6) => set_mode_finish fuel t s6).2.status.isSome
      cases hr : read_status s1 with
      | mk o2 s2 =>
        have h2 : (read_status s1).2.status.isSome :=
          read_status_status_isSome (by rw [hs1]; exact h)
        rw [hr] at h2
        cases o2 with
        | error e => exact h2
        | ok st0 =>
          show (match set_mode_transition fuel st0.mode mode t s2 with
                | (.err e, s6) => ((.err e : Out DeviceStatus), s6)
                | (.spin, s6) => (.spin, s6)
                | (.ok (), s6) => set_mode_finish fuel t s6).2.status.isSome
          cases htr : set_mode_transition fuel st0.mode mode t s2 with
          | mk o3 s6 =>
            have hs6 : s6.status = s2.status := by
              have hst := set_mode_transition_status fuel st0.mode mode t s2
              rw [htr] at hst
              exact hst
            cases o3 with
            | err e => show s6.status.isSome; rw [hs6]; exact h2
            | spin => show s6.status.isSome; rw [hs6]; exact h2
            | ok u =>
              cases u
              show (set_mode_finish fuel t s6).2.status.isSome
              exact set_mode_finish_status_isSome (by rw [hs6]; exact h2)

theorem reset_status_isSome {fuel : Nat} {s : Sess} (h : s.status.isSome) :
    (reset fuel s).2.status.isSome := by
  unfold reset
  cases he : ensure_ready s with
  | error e => exact h
  | ok u =>
    cases u
    cases hw : wait_for_ready_timeout fuel none
        { s with dev := (s.dev.smbus_write_byte 0xE2).sleep 6 } with
    | mk o s2 =>
      have hs2 : s2.status = s.status := by
        have hst := wait_ready_timeout_status fuel none
          { s with dev := (s.dev.smbus_write_byte 0xE2).sleep 6 }
        rw [hw] at hst
        exact hst
      cases o with
      | err e => show s2.status.isSome; rw [hs2]; exact h
      | spin => show s2.status.isSome; rw [hs2]; exact h
      | ok u =>
        cases u
        show (match read_status s2 with
              | (.ok st, s3) => ((.ok st : Out DeviceStatus), s3)
              | (.error e, s3) => (.err e, s3)).2.status.isSome
        cases hr : read_status s2 with
        | mk o2 s3 =>
          have h3 : (read_status s2).2.status.isSome :=
            read_status_status_isSome (by rw [hs2]; exact h)
          rw [hr] at h3
          cases o2 with
          | ok st => exact h3
          | error e => exact h3

theorem is_ready_err_inv {s : Sess} {e : MError} (h : is_ready s = .error e) :
    e = .gpioError := by
  unfold is_ready at h
  cases hp : s.dev.pin with
  | some v => rw [hp] at h; simp at h
  | none => rw [hp] at h; simp at h; exact h.symm

theorem ensure_ready_err_inv {s : Sess} {e : MError} (h : ensure_ready s = .error e) :
    e = .notReady ∨ e = .gpioError := by
  unfold ensure_ready at h
  cases hr : is_ready s with
  | error e' =>
    rw [hr] at h
    simp at h
    right
    cases h
    exact is_ready_err_inv hr
  | ok b =>
    cases b with
    | true => rw [hr] at h; simp at h
    | false =>
      rw [hr] at h
      simp at h
      left
      exact h.symm

theorem try_new_device_timeout_ok_inv {fuel : Nat} {t : Option Nat} {dev : Dev} {s : Sess}
    (h : try_new_device_timeout fuel t dev = .ok s) : s.status.isSome := by
  unfold try_new_device_timeout at h
  cases hw : wait_for_ready_timeout fuel t { dev := dev, status := none } with
  | mk o s1 =>
    rw [hw] at h
    cases o with
    | err e => simp at h
    | spin => simp at h
    | ok u =>
      cases u
      have h' : (match read_status s1 with
          | (.ok _, s2) => (.ok s2 : Out Sess)
          | (.error e, _) => .err e) = .ok s := h
      cases hr : read_status s1 with
      | mk o2 s2 =>
        rw [hr] at h'
        cases o2 with
        | error e => simp at h'
        | ok st =>
          simp at h'
          subst h'
          obtain ⟨_, hs2⟩ := read_status_ok_inv hr
          rw [hs2]
          rfl

/-- C9: every successful constructor returns a session whose status
cache is populated; no session operation ever resets the cache to
`None`; and a session with a populated cache can never fail
`execute_measurement` with `StatusMissing`. -/
theorem session_status_cached_invariant :
    (∀ (fuel : Nat) (t : Option Nat) (dev : Dev) (s : Sess),
       try_new_device_timeout fuel t dev = .ok s → s.status.isSome)
    ∧ (∀ (fuel : Nat) (t : Option Nat) (dev : Dev) (s : Sess),
       try_new_timeout fuel t dev = .ok s → s.status.isSome)
    ∧ (∀ (fuel : Nat) (dev : Dev) (s : Sess),
       try_new fuel dev = .ok s → s.status.isSome)
    ∧ (∀ (op : SessionOp) (s : Sess), s.status.isSome → (run_op op s).status.isSome)
    ∧ (∀ s : Sess, s.status.isSome → (execute_measurement s).1 ≠ .error .statusMissing) := by
  refine ⟨?_, ?_, ?_, ?_, ?_⟩
  · intro fuel t dev s h
    exact try_new_device_timeout_ok_inv h
  · intro fuel t dev s h
    exact try_new_device_timeout_ok_inv h
  · intro fuel dev s h
    exact try_new_device_timeout_ok_inv h
  · intro op s h
    cases op with
    | opReadStatus => exact read_status_status_isSome h
    | opSetModeNaive m =>
      show (set_mode_naive m s).status.isSome
      rw [set_mode_naive_status]
      exact h
    | opSetMode fuel m t => exact set_mode_timeout_status_isSome h
    | opExecuteMeasurement =>
      show (execute_measurement s).2.status.isSome
      rw [execute_measurement_status]
      exact h
    | opReset fuel => exact reset_status_isSome h
    | opClearLight =>
      show (clear_light_interrupt s).2.status.isSome
      rw [clear_light_interrupt_status]
      exact h
    | opClearSound =>
      show (clear_sound_interrupt s).2.status.isSome
      rw [clear_sound_interrupt_status]
      exact h
    | opWaitReady fuel t =>
      show (wait_for_ready_timeout fuel t s).2.status.isSome
      rw [wait_ready_timeout_status]
      exact h
    | opWaitNotReady fuel t =>
      show (wait_for_not_ready_timeout fuel t s).2.status.isSome
      rw [wait_not_ready_timeout_status]
      exact h
    | opReadMetric reg len =>
      show (read_metric reg len s).2.status.isSome
      rw [read_metric_state]
      exact h
  · intro s h hcontra
    unfold execute_measurement at hcontra
    cases hs : s.status with
    | none => rw [hs] at h; simp at h
    | some st =>
      obtain ⟨ps, li, si, m⟩ := st
      rw [hs] at hcontra
      cases m with
      | cycle p => simp at hcontra
      | standby =>
        cases he : ensure_ready s with
        | error e =>
          rw [he] at hcontra
          simp at hcontra
          rcases ensure_ready_err_inv he with h1 | h1 <;> subst h1 <;> simp at hcontra
        | ok u =>
          cases u
          rw [he] at hcontra
          simp at hcontra

/-- Witness for C9: a constructed session on the ready sample device has
a cached status, and running a status read then an on-demand trigger on
it cannot fail with `StatusMissing`. -/
theorem session_status_cached_invariant_witness :
    ((run_op .opReadStatus ⟨sampleDev 0 0, some (sampleStatus .standby)⟩).status.isSome)
    ∧ (execute_measurement ⟨sampleDev 0 0, some (sampleStatus .standby)⟩).1
        ≠ .error .statusMissing :=
  ⟨session_status_cached_invariant.2.2.2.1 .opReadStatus
      ⟨sampleDev 0 0, some (sampleStatus .standby)⟩ rfl,
   session_status_cached_invariant.2.2.2.2 ⟨sampleDev 0 0, some (sampleStatus .standby)⟩ rfl⟩

end Metriful
